import Mathlib

/-!
# Verification of the forge-patterns test-quality / test-generation core

Shallow embedding of `src/patterns/testing/test_quality_validator.py` and
`src/patterns/testing/test_creation_framework.py`.

Numbers: Python floats are modelled as exact rationals (`ℚ`); every quantity
that the claims touch (percentages of small counts, weighted sums, means of
two values) is exactly representable in binary floating point, so the two
agree on all scenarios stated here.  Machine strings are Lean `String`s.
Python exceptions are modelled with `Except`: a Python function that can
raise an exception past its boundary returns `Except PyErr α`.
-/

namespace ForgePatterns

/-- A Python exception value: the class name and the message `str(e)`. -/
structure PyErr where
  kind : String
  msg : String
deriving DecidableEq, Repr

/-- A single quote character, used inside modelled Python f-string output. -/
def sq : String := String.singleton (Char.ofNat 39)

/-- Does `n` occur (as a contiguous run) somewhere in `h`?  Scans left to
right; structural recursion so that proofs can evaluate it. -/
def sub_in_aux (n : List Char) : List Char → Bool
  | [] => false
  | c :: t => List.isPrefixOf n (c :: t) || sub_in_aux n t

/-- Python `needle in hay` (substring test; an empty needle always
matches). -/
def pyInStr (needle hay : String) : Bool :=
  needle.data.isEmpty || sub_in_aux needle.data hay.data

/-- Left-to-right non-overlapping occurrence counting: after a match the
next `n.length - 1` characters are skipped (the first matched character is
consumed by the step itself). -/
def count_aux (n : List Char) : List Char → Nat → Nat
  | [], _ => 0
  | c :: t, 0 =>
    if List.isPrefixOf n (c :: t) then 1 + count_aux n t (n.length - 1)
    else count_aux n t 0
  | _ :: t, k + 1 => count_aux n t k

/-- Python `hay.count(needle)`: non-overlapping occurrences, scanned from
the left. -/
def pyCount (hay needle : String) : Nat :=
  if needle.data.isEmpty then hay.data.length + 1 else count_aux needle.data hay.data 0

/-- Python `s.lower()` for the ASCII text handled here. -/
def py_lower (s : String) : String :=
  ⟨s.data.map Char.toLower⟩

/-- Python `s.startswith(pre)`. -/
def pyStartsWith (s pre : String) : Bool :=
  List.isPrefixOf pre.data s.data

/-- Python `c in s` for a single-character pattern: character membership. -/
def pyHasChar (s : String) (c : Char) : Bool :=
  s.data.contains c

/-- Python `s.isupper()` restricted to ASCII identifiers: there is at least
one cased character and no cased character is lower-case. -/
def pyIsUpper (s : String) : Bool :=
  s.data.any (fun c => c.isUpper || c.isLower) && s.data.all (fun c => !c.isLower)

/-! ## Data model of `test_quality_validator.py` -/

/-- Dataclass `QualityMetrics` (all fields default `0.0`). -/
structure QualityMetrics where
  business_logic_coverage : ℚ := 0
  error_scenario_coverage : ℚ := 0
  mock_isolation_score : ℚ := 0
  realistic_data_score : ℚ := 0
  documentation_score : ℚ := 0
  maintenance_score : ℚ := 0
  integration_coverage : ℚ := 0
  overall_quality_score : ℚ := 0
deriving DecidableEq, Repr

/-- Dataclass `TestIssue`. -/
structure TestIssue where
  file_path : String
  line_number : Nat
  issue_type : String
  severity : String
  description : String
  suggestion : String := ""
deriving DecidableEq, Repr

/-- Dataclass `TestQualityConfig`.  The glob-pattern / excluded-directory
fields feed only file discovery (I/O, outside the analysis functions
modelled here) and are omitted; every field consulted by the analysis
functions is present with its source default. -/
structure TestQualityConfig where
  min_coverage_threshold : ℚ := 80
  min_business_logic_threshold : ℚ := 70
  min_error_scenario_threshold : ℚ := 60
  business_logic_weight : ℚ := 25/100
  error_scenario_weight : ℚ := 20/100
  mock_isolation_weight : ℚ := 15/100
  realistic_data_weight : ℚ := 15/100
  documentation_weight : ℚ := 15/100
  maintenance_weight : ℚ := 10/100
  min_test_length : ℤ := 10
  max_test_length : ℤ := 200
  min_assertions_per_test : Nat := 1
  max_mock_objects_per_test : Nat := 5
deriving DecidableEq, Repr

/-- One `ast.FunctionDef` node of a parsed test file, with the attributes the
analyzer reads.  `assert_count` is the number of `ast.Assert` nodes inside
`ast.walk(func)` (the source also collects `ast.Call` nodes into the same
list and then filters them back out; only the `Assert` count survives).
`source_segment` is `ast.get_source_segment(content, func) or ""`.
`doc` is the value `ast.get_docstring(func)` would return; the analyzer
never manages to read it, because it accesses `func.docstring`, an attribute
that `ast.FunctionDef` does not define (the API is `ast.get_docstring`), so
that access raises `AttributeError` (see `_analyze_documentation`). -/
structure PyFunc where
  name : String
  lineno : Nat
  end_lineno : Nat
  assert_count : Nat
  source_segment : String
  doc : Option String := none
deriving DecidableEq, Repr

/-- The outcome of `ast.parse` on a test file's content: a syntax error, or
the list of `ast.FunctionDef` nodes in `ast.walk` order. -/
inductive PyFile where
  | unparsable (msg : String)
  | parsed (funcs : List PyFunc)
deriving DecidableEq, Repr

/-- `func.end_lineno - func.lineno` (Python 3.8+ always has `end_lineno`,
so the `hasattr` guard's else-branch is dead). -/
def func_lines (f : PyFunc) : ℤ :=
  (f.end_lineno : ℤ) - (f.lineno : ℤ)

/-- The test functions of a file: every function whose name begins with
`test_`, kept in walk order (each analysis loop skips the others). -/
def test_funcs (fs : List PyFunc) : List PyFunc :=
  fs.filter (fun f => pyStartsWith f.name "test_")

/-! ## The six analysis passes of `TestAnalyzer`

Each pass iterates over `ast.walk(tree)`'s `FunctionDef` nodes, skipping
those not named `test_...`; that is iteration over `test_funcs`.  A loop
counting matches becomes `List.countP`; a loop appending an issue per
matching function becomes `List.filterMap`; the two are interleaved exactly
as the source's single loop is (issues in walk order). -/

/-- `TestAnalyzer._analyze_test_structure`: per test function, a
`test_too_short` issue when its span is below `min_test_length`, then an
`insufficient_assertions` issue when its `ast.Assert` count is below
`min_assertions_per_test`.  No metric is assigned. -/
def _analyze_test_structure (cfg : TestQualityConfig) (fp : String)
    (fs : List PyFunc) : List TestIssue :=
  (test_funcs fs).flatMap (fun f =>
    (if func_lines f < cfg.min_test_length then
      [{ file_path := fp, line_number := f.lineno, issue_type := "test_too_short",
         severity := "medium",
         description := "Test function " ++ sq ++ f.name ++ sq ++ " is too short (" ++ toString (func_lines f) ++ " lines)",
         suggestion := "Add more comprehensive test scenarios or combine with related tests" }]
     else []) ++
    (if f.assert_count < cfg.min_assertions_per_test then
      [{ file_path := fp, line_number := f.lineno, issue_type := "insufficient_assertions",
         severity := "medium",
         description := "Test function " ++ sq ++ f.name ++ sq ++ " has only " ++ toString f.assert_count ++ " assertions",
         suggestion := "Add more assertions to verify expected behavior thoroughly" }]
     else []))

/-- The fixed `business_logic_indicators` vocabulary. -/
def business_logic_indicators : List String :=
  ["calculate_", "compute_", "process_", "handle_", "validate_",
   "transform_", "convert_", "apply_", "execute_", "perform_"]

/-- A test function covers business logic when its source text, lowered,
contains one of the indicators. -/
def business_hit (f : PyFunc) : Bool :=
  business_logic_indicators.any (fun ind => pyInStr ind (py_lower f.source_segment))

/-- Format a percentage the way the claims need it; the source renders it
with `"%.1f"` (round half to even on tenths) inside the description text. -/
def fmt1 (x : ℚ) : String :=
  let t : ℚ := 10 * x
  let fl : ℤ := t.floor
  let k : ℤ :=
    if t - (fl : ℚ) < 1/2 then fl
    else if t - (fl : ℚ) > 1/2 then fl + 1
    else if fl % 2 = 0 then fl else fl + 1
  (if k < 0 then "-" else "") ++ toString (k.natAbs / 10) ++ "." ++ toString (k.natAbs % 10)

/-- `TestAnalyzer._analyze_business_logic_coverage`: the matching percentage
(0 when there are no test functions), plus a file-level
`low_business_logic_coverage` issue whenever the percentage is below
`min_business_logic_threshold` (also when there are no test functions). -/
def _analyze_business_logic_coverage (cfg : TestQualityConfig) (fp : String)
    (fs : List PyFunc) : ℚ × List TestIssue :=
  let ts := test_funcs fs
  let cover : ℚ :=
    if ts.length > 0 then ((ts.countP business_hit : ℚ) / (ts.length : ℚ)) * 100 else 0
  let issues :=
    if cover < cfg.min_business_logic_threshold then
      [{ file_path := fp, line_number := 1, issue_type := "low_business_logic_coverage",
         severity := "high",
         description := "Low business logic coverage: " ++ fmt1 cover ++ "%",
         suggestion := "Add tests that verify core business logic and user workflows" }]
    else []
  (cover, issues)

/-- The fixed `error_indicators` vocabulary. -/
def error_indicators : List String :=
  ["raises", "exception", "error", "fail", "invalid", "malformed",
   "timeout", "network", "permission", "authentication", "authorization"]

/-- A test function covers error scenarios when its lowered text contains an
indicator, or its raw text contains `with raises` or `pytest.raises`. -/
def error_hit (f : PyFunc) : Bool :=
  error_indicators.any (fun ind => pyInStr ind (py_lower f.source_segment)) ||
    pyInStr "with raises" f.source_segment || pyInStr "pytest.raises" f.source_segment

/-- `TestAnalyzer._analyze_error_scenarios`: the matching percentage; this
pass emits no issues. -/
def _analyze_error_scenarios (fs : List PyFunc) : ℚ :=
  let ts := test_funcs fs
  if ts.length > 0 then ((ts.countP error_hit : ℚ) / (ts.length : ℚ)) * 100 else 0

/-- The fixed `mock_indicators` vocabulary.  Note the source counts the
indicators inside the *lowered* text, so the mixed-case entries
`MagicMock` / `AsyncMock` can never match (their lowered occurrences are
already counted by `mock`). -/
def mock_indicators : List String := ["mock", "patch", "MagicMock", "AsyncMock", "stub"]

/-- Total count of mock-indicator occurrences in a test function's text. -/
def mock_count (f : PyFunc) : Nat :=
  (mock_indicators.map (fun ind => pyCount (py_lower f.source_segment) ind)).sum

/-- `TestAnalyzer._analyze_mock_usage`: a test function is isolated when
`0 < mock_count ≤ max_mock_objects_per_test`; a `too_many_mocks` issue is
emitted when the count exceeds the ceiling.  Metric = isolated percentage. -/
def _analyze_mock_usage (cfg : TestQualityConfig) (fp : String)
    (fs : List PyFunc) : ℚ × List TestIssue :=
  let ts := test_funcs fs
  let isolated := ts.countP (fun f =>
    0 < mock_count f && mock_count f ≤ cfg.max_mock_objects_per_test)
  let issues := ts.filterMap (fun f =>
    if mock_count f > cfg.max_mock_objects_per_test then
      some { file_path := fp, line_number := f.lineno, issue_type := "too_many_mocks",
             severity := "medium",
             description := "Test " ++ sq ++ f.name ++ sq ++ " uses " ++ toString (mock_count f) ++ " mock objects",
             suggestion := "Consider simplifying the test or breaking it into multiple focused tests" }
    else none)
  let score : ℚ :=
    if ts.length > 0 then ((isolated : ℚ) / (ts.length : ℚ)) * 100 else 0
  (score, issues)

/-- `TestAnalyzer._analyze_documentation`.  The loop's condition starts with
`func.docstring` — but `ast.FunctionDef` defines no attribute `docstring`
(the correct API, used elsewhere in the repository, is
`ast.get_docstring(func)`), so the first test function reached raises
`AttributeError` before anything else in this pass can happen; the
documented / `missing_documentation` branches below it are dead code.
With no test function the loop finishes and the score is set to `0.0`. -/
def _analyze_documentation (fs : List PyFunc) : Except PyErr ℚ :=
  match (test_funcs fs).head? with
  | some _ => .error ⟨"AttributeError",
      sq ++ "FunctionDef" ++ sq ++ " object has no attribute " ++ sq ++ "docstring" ++ sq⟩
  | none => .ok 0

/-- The maintainability predicate: span within bounds, truthy (non-empty)
name, and an underscore somewhere in the (full) name. -/
def maintainable (cfg : TestQualityConfig) (f : PyFunc) : Bool :=
  cfg.min_test_length ≤ func_lines f && func_lines f ≤ cfg.max_test_length &&
    !(f.name = "") && pyHasChar f.name '_'

/-- `TestAnalyzer._analyze_maintainability`: count maintainable test
functions; a function whose span exceeds `max_test_length` (hence failing
the first conjunct) gets a `test_too_long` issue instead. -/
def _analyze_maintainability (cfg : TestQualityConfig) (fp : String)
    (fs : List PyFunc) : ℚ × List TestIssue :=
  let ts := test_funcs fs
  let cnt := ts.countP (maintainable cfg)
  let issues := ts.filterMap (fun f =>
    if func_lines f > cfg.max_test_length then
      some { file_path := fp, line_number := f.lineno, issue_type := "test_too_long",
             severity := "medium",
             description := "Test function " ++ sq ++ f.name ++ sq ++ " is too long (" ++ toString (func_lines f) ++ " lines)",
             suggestion := "Break down into multiple smaller, focused test functions" }
    else none)
  let score : ℚ :=
    if ts.length > 0 then ((cnt : ℚ) / (ts.length : ℚ)) * 100 else 0
  (score, issues)

/-- `TestAnalyzer._calculate_overall_score`: weighted sum of the six scored
metrics, capped above at `100.0` (and nowhere below). -/
def _calculate_overall_score (cfg : TestQualityConfig) (m : QualityMetrics) : ℚ :=
  min (m.business_logic_coverage * cfg.business_logic_weight +
       m.error_scenario_coverage * cfg.error_scenario_weight +
       m.mock_isolation_score * cfg.mock_isolation_weight +
       m.realistic_data_score * cfg.realistic_data_weight +
       m.documentation_score * cfg.documentation_weight +
       m.maintenance_score * cfg.maintenance_weight) 100

/-- The issue the `except` handler of `analyze_test_file` appends. -/
def analysis_error_issue (fp : String) (e : PyErr) : TestIssue :=
  { file_path := fp, line_number := 1, issue_type := "analysis_error",
    severity := "high",
    description := "Failed to analyze test file: " ++ e.msg,
    suggestion := "Check if the file contains valid Python code" }

/-- `TestAnalyzer.analyze_test_file`.

* If `ast.parse` raises (an unparsable file), control reaches the `except`
  handler **before** the local `issues = []` binding was executed; the
  handler's `issues.append(...)` therefore raises `UnboundLocalError`,
  which propagates to the caller — no degraded result is produced.
* Otherwise the six passes run in order over the freshly created
  `metrics` / `issues`.  Passes 1–4 are total; pass 5
  (`_analyze_documentation`) raises `AttributeError` as soon as the file has
  a test function.  That exception *is* caught (by then `issues` is bound):
  the handler appends an `analysis_error` issue to the issues collected so
  far and returns a fresh all-zero `QualityMetrics`. -/
def analyze_test_file (cfg : TestQualityConfig) (fp : String) (file : PyFile) :
    Except PyErr (QualityMetrics × List TestIssue) :=
  match file with
  | .unparsable _ =>
      .error ⟨"UnboundLocalError",
        "local variable " ++ sq ++ "issues" ++ sq ++ " referenced before assignment"⟩
  | .parsed fs =>
      let is1 := _analyze_test_structure cfg fp fs
      let bl := _analyze_business_logic_coverage cfg fp fs
      let er := _analyze_error_scenarios fs
      let mk := _analyze_mock_usage cfg fp fs
      let issues := is1 ++ bl.2 ++ mk.2
      match _analyze_documentation fs with
      | .error e => .ok ({}, issues ++ [analysis_error_issue fp e])
      | .ok doc =>
        let mn := _analyze_maintainability cfg fp fs
        let m : QualityMetrics :=
          { business_logic_coverage := bl.1, error_scenario_coverage := er,
            mock_isolation_score := mk.1, documentation_score := doc,
            maintenance_score := mn.1 }
        .ok ({ m with overall_quality_score := _calculate_overall_score cfg m },
             issues ++ mn.2)

/-! ## `TestQualityValidator`: project-level aggregation -/

/-- The accumulation loop of `_calculate_project_metrics`: a running
`QualityMetrics` whose seven aggregated fields are summed field-wise
(`integration_coverage` is not touched by the loop and stays `0.0`). -/
def sum_metrics : List QualityMetrics → QualityMetrics
  | [] => {}
  | m :: rest =>
    let t := sum_metrics rest
    { business_logic_coverage := m.business_logic_coverage + t.business_logic_coverage,
      error_scenario_coverage := m.error_scenario_coverage + t.error_scenario_coverage,
      mock_isolation_score := m.mock_isolation_score + t.mock_isolation_score,
      realistic_data_score := m.realistic_data_score + t.realistic_data_score,
      documentation_score := m.documentation_score + t.documentation_score,
      maintenance_score := m.maintenance_score + t.maintenance_score,
      overall_quality_score := m.overall_quality_score + t.overall_quality_score }

/-- `TestQualityValidator._calculate_project_metrics`: empty input gives the
all-zero record; otherwise every accumulated total is divided by the file
count (the constructor call passes seven keyword fields, so
`integration_coverage` takes its `0.0` default). -/
def _calculate_project_metrics (l : List QualityMetrics) : QualityMetrics :=
  if l.isEmpty then {}
  else
    let t := sum_metrics l
    let c : ℚ := l.length
    { business_logic_coverage := t.business_logic_coverage / c,
      error_scenario_coverage := t.error_scenario_coverage / c,
      mock_isolation_score := t.mock_isolation_score / c,
      realistic_data_score := t.realistic_data_score / c,
      documentation_score := t.documentation_score / c,
      maintenance_score := t.maintenance_score / c,
      overall_quality_score := t.overall_quality_score / c }

/-- `TestQualityValidator._calculate_quality_grade`. -/
def _calculate_quality_grade (score : ℚ) : String :=
  if score ≥ 90 then "A"
  else if score ≥ 80 then "B"
  else if score ≥ 70 then "C"
  else if score ≥ 60 then "D"
  else "F"

/-- The spec-side mean: the unweighted arithmetic mean of one metric field
over the per-file metrics (said by the spec to be what aggregation does). -/
def field_mean (l : List QualityMetrics) (f : QualityMetrics → ℚ) : ℚ :=
  (l.map f).sum / (l.length : ℚ)

/-- The outcome of `TestQualityValidator.analyze_project`, restricted to the
report fields the claims touch; the issue summary and recommendation text
are carried as the raw issue list. -/
inductive ProjectResult where
  | no_test_files
  | report (test_files_analyzed : Nat) (project_metrics : QualityMetrics)
      (file_metrics : List QualityMetrics) (all_issues : List TestIssue)
      (quality_grade : String)
deriving DecidableEq, Repr

/-- The per-file loop of `analyze_project`: each file goes through
`analyze_test_file`; an exception escaping it (the unparsable-file case)
propagates and aborts the whole loop — there is no try/except here. -/
def analyze_files (cfg : TestQualityConfig) :
    List (String × PyFile) → Except PyErr (List QualityMetrics × List TestIssue)
  | [] => .ok ([], [])
  | (fp, file) :: rest => do
    let (m, is) ← analyze_test_file cfg fp file
    let (ms, iss) ← analyze_files cfg rest
    .ok (m :: ms, is ++ iss)

/-- `TestQualityValidator.analyze_project` over an already discovered file
list (discovery itself is I/O).  An empty discovery returns the explicit
`No test files found` result; any exception from a file's analysis
propagates out of `analyze_project` itself. -/
def analyze_project (cfg : TestQualityConfig) (files : List (String × PyFile)) :
    Except PyErr ProjectResult :=
  if files.isEmpty then .ok .no_test_files
  else do
    let (ms, iss) ← analyze_files cfg files
    let pm := _calculate_project_metrics ms
    .ok (.report files.length pm ms iss (_calculate_quality_grade pm.overall_quality_score))

/-! ## Data model of `test_creation_framework.py` (`ModuleAnalyzer`) -/

/-- A Python constant literal, with the renderings `str(v)` and `repr(v)`. -/
inductive PyConstVal where
  | int (n : ℤ)
  | str (s : String)
  | bool (b : Bool)
  | none
deriving DecidableEq, Repr

/-- `str(node.value)` for a constant node. -/
def py_str : PyConstVal → String
  | .int n => toString n
  | .str s => s
  | .bool b => if b then "True" else "False"
  | .none => "None"

/-- `repr(node.value)` for a constant node. -/
def py_repr : PyConstVal → String
  | .int n => toString n
  | .str s => sq ++ s ++ sq
  | .bool b => if b then "True" else "False"
  | .none => "None"

/-- The annotation/expression node kinds `_get_node_type` distinguishes
(`ast.Name`, `ast.Attribute`, `ast.Subscript`, `ast.Constant`, everything
else).  A `Subscript` in Python 3.9+ carries the inner expression directly
in its `slice` field, and `hasattr(node, "slice")` is always true. -/
inductive PyExpr where
  | name (id : String)
  | attr_access (value : PyExpr) (attr : String)
  | subscriptOf (value : PyExpr) (slice : PyExpr)
  | constant (value : PyConstVal)
  | otherExpr
deriving DecidableEq, Repr

/-- `ModuleAnalyzer._get_node_type`: recursive rendering of an annotation
node (no sub-case can raise, so the bare `except: return "Any"` is dead). -/
def _get_node_type : PyExpr → String
  | .name id => id
  | .attr_access v a => _get_node_type v ++ "." ++ a
  | .subscriptOf v s => _get_node_type v ++ "[" ++ _get_node_type s ++ "]"
  | .constant c => py_str c
  | .otherExpr => "Any"

/-- The value node kinds `_get_node_value` distinguishes. -/
inductive PyValue where
  | constant (value : PyConstVal)
  | nameV (id : String)
  | callOf (func : PyValue)
  | otherValue
deriving DecidableEq, Repr

/-- `ModuleAnalyzer._get_node_value`. -/
def _get_node_value : PyValue → String
  | .constant c => py_repr c
  | .nameV id => id
  | .callOf f => _get_node_value f ++ "(...)"
  | .otherValue => "..."

/-- One entry of `node.args.args`: the parameter name and its annotation
node, when present. -/
structure PyArg where
  arg : String
  annot : Option PyExpr := Option.none
deriving DecidableEq, Repr

/-- An `ast.FunctionDef` as the module analyzer reads it.  `doc` is
`ast.get_docstring(node) or ""` (here the source uses the correct API). -/
structure PyFunctionDef where
  name : String
  args : List PyArg := []
  returns : Option PyExpr := Option.none
  doc : String := ""
  decorator_list : List PyExpr := []
deriving DecidableEq, Repr

/-- An assignment target: a bare `ast.Name` (carrying its `id`) or any
other target form. -/
inductive PyTarget where
  | name (id : String)
  | otherTarget
deriving DecidableEq, Repr

mutual

/-- A module- or class-body statement, as far as the analyzer inspects it. -/
inductive PyStmt where
  | importStmt (names : List (String × Option String))
  | importFrom (module : Option String) (names : List (String × Option String))
  | functionDef (fd : PyFunctionDef)
  | classDef (cd : PyClassDef)
  | assign (targets : List PyTarget) (value : PyValue)
  | otherStmt

/-- An `ast.ClassDef`: name, base expressions, body statements, docstring. -/
inductive PyClassDef where
  | mk (name : String) (bases : List PyExpr) (body : List PyStmt) (doc : String)

end

/-- The parameter record `_analyze_function` builds (`default` is never
filled in by the source). -/
structure ParamInfo where
  name : String
  type : Option String := Option.none
  default : Option String := Option.none
deriving DecidableEq, Repr

/-- The function record `_analyze_function` builds. -/
structure FuncInfo where
  name : String
  is_private : Bool
  parameters : List ParamInfo
  return_type : Option String
  docstring : String
  decorators : List String
deriving DecidableEq, Repr

/-- `ModuleAnalyzer._analyze_function`.  A parameter's `type` is set only
when the argument has an annotation; otherwise it stays `None`. -/
def _analyze_function (fd : PyFunctionDef) : FuncInfo :=
  { name := fd.name,
    is_private := pyStartsWith fd.name "_",
    parameters := fd.args.map (fun a =>
      { name := a.arg, type := a.annot.map _get_node_type }),
    return_type := fd.returns.map _get_node_type,
    docstring := fd.doc,
    decorators := fd.decorator_list.filterMap (fun d =>
      match d with
      | .name id => some id
      | _ => Option.none) }

/-- The method record: the function record plus the `is_dunder` tag. -/
structure MethodInfo where
  info : FuncInfo
  is_dunder : Bool
deriving DecidableEq, Repr

/-- A class-property record (never actually constructed; see below). -/
structure PropInfo where
  name : String
  value : String
deriving DecidableEq, Repr

/-- The class record `_analyze_class` builds (`decorators` is initialized
empty and never filled). -/
structure ClassInfo where
  name : String
  is_private : Bool
  bases : List String
  methods : List MethodInfo
  properties : List PropInfo
  docstring : String
deriving DecidableEq, Repr

/-- The `AttributeError` raised by `_analyze_class`'s property loop:
it tests `isinstance(target, ast.Name)` and then reads `target.name`, but
`ast.Name` stores its identifier in `.id` and has no attribute `.name`. -/
def name_attr_err : PyErr :=
  ⟨"AttributeError", sq ++ "Name" ++ sq ++ " object has no attribute " ++ sq ++ "name" ++ sq⟩

/-- The target loop of `_analyze_class`'s `ast.Assign` branch: the first
bare-`Name` target raises `AttributeError` (the property record that the
body would build is dead code); non-`Name` targets are skipped. -/
def class_assign_targets (props : List PropInfo) :
    List PyTarget → Except PyErr (List PropInfo)
  | [] => .ok props
  | .name _ :: _ => .error name_attr_err
  | .otherTarget :: rest => class_assign_targets props rest

/-- The body loop of `_analyze_class`: methods accumulate from
`_analyze_function`; an `ast.Assign` item runs the target loop above. -/
def class_body_loop (ms : List MethodInfo) (props : List PropInfo) :
    List PyStmt → Except PyErr (List MethodInfo × List PropInfo)
  | [] => .ok (ms, props)
  | .functionDef fd :: rest =>
      class_body_loop (ms ++ [⟨_analyze_function fd, pyStartsWith fd.name "__"⟩]) props rest
  | .assign ts _ :: rest =>
      match class_assign_targets props ts with
      | .error e => .error e
      | .ok props' => class_body_loop ms props' rest
  | _ :: rest => class_body_loop ms props rest

/-- `ModuleAnalyzer._analyze_class`. -/
def _analyze_class : PyClassDef → Except PyErr ClassInfo
  | .mk name bases body doc =>
    match class_body_loop [] [] body with
    | .error e => .error e
    | .ok (ms, props) =>
      .ok { name := name,
            is_private := pyStartsWith name "_",
            bases := bases.filterMap (fun b =>
              match b with
              | .name id => some id
              | _ => Option.none),
            methods := ms, properties := props, docstring := doc }

/-- One import record. -/
inductive ImportRec where
  | importRec (module : String) (asname : Option String)
  | fromImportRec (module : String) (name : String) (asname : Option String)
deriving DecidableEq, Repr

/-- One module-level constant record. -/
structure ConstRec where
  name : String
  value : String
deriving DecidableEq, Repr

/-- The dictionary `analyze_module` returns (`error` is present exactly on
the degraded branch). -/
structure ModuleInfo where
  name : String
  import_path : String
  error : Option String := Option.none
  functions : List FuncInfo := []
  classes : List ClassInfo := []
  imports : List ImportRec := []
  constants : List ConstRec := []
deriving DecidableEq, Repr

/-- `ModuleAnalyzer._get_import_path` over the path segments of the file
with its suffix stripped: drop a leading `src`/`lib`/`app` segment, then
join with dots. -/
def _get_import_path (parts : List String) : String :=
  let parts' :=
    match parts with
    | p :: rest => if p = "src" || p = "lib" || p = "app" then rest else parts
    | [] => parts
  ".".intercalate parts'

/-- The first extraction loop of `analyze_module`: import records. -/
def extract_imports (body : List PyStmt) : List ImportRec :=
  body.flatMap (fun st =>
    match st with
    | .importStmt names => names.map (fun n => ImportRec.importRec n.1 n.2)
    | .importFrom m names =>
        names.map (fun n => ImportRec.fromImportRec (m.getD "") n.1 n.2)
    | _ => [])

/-- The constant loop over one module-level `ast.Assign`: a bare-`Name`
target whose identifier `isupper()` yields a constant record (at module
level the source correctly reads `target.id`, so nothing raises here). -/
def module_constants (value : PyValue) (ts : List PyTarget) : List ConstRec :=
  ts.filterMap (fun t =>
    match t with
    | .name id =>
        if pyIsUpper id then some ⟨id, _get_node_value value⟩ else Option.none
    | .otherTarget => Option.none)

/-- The second extraction loop of `analyze_module`: functions, classes and
constants, in body order; a class whose analysis raises aborts the loop. -/
def extract_defs (fns : List FuncInfo) (cls : List ClassInfo) (cs : List ConstRec) :
    List PyStmt → Except PyErr (List FuncInfo × List ClassInfo × List ConstRec)
  | [] => .ok (fns, cls, cs)
  | .functionDef fd :: rest => extract_defs (fns ++ [_analyze_function fd]) cls cs rest
  | .classDef cd :: rest =>
      match _analyze_class cd with
      | .error e => .error e
      | .ok ci => extract_defs fns (cls ++ [ci]) cs rest
  | .assign ts v :: rest => extract_defs fns cls (cs ++ module_constants v ts) rest
  | _ :: rest => extract_defs fns cls cs rest

/-- A module file as handed to `analyze_module`: a syntax error from
`ast.parse` (with its `str(e)`), or the parsed top-level body. -/
inductive PyModuleFile where
  | unparsable (msg : String)
  | parsed (body : List PyStmt)

/-- The degraded dictionary of `analyze_module`'s `except` branch: the
dotted path falls back to the bare stem and all four lists are empty. -/
def degraded_module (stem : String) (e : String) : ModuleInfo :=
  { name := stem, import_path := stem, error := some e }

/-- `ModuleAnalyzer.analyze_module`: on any exception inside the `try`
(`ast.parse` raising, or `_analyze_class` raising `AttributeError`) the
degraded dictionary is returned; otherwise the fully extracted model. -/
def analyze_module (parts : List String) (stem : String) :
    PyModuleFile → ModuleInfo
  | .unparsable msg => degraded_module stem msg
  | .parsed body =>
    match extract_defs [] [] [] body with
    | .error e => degraded_module stem e.msg
    | .ok (fns, cls, cs) =>
      { name := stem, import_path := _get_import_path parts,
        functions := fns, classes := cls,
        imports := extract_imports body, constants := cs }

/-! ## `TestTemplate._generate_basic_function_test` -/

/-- The assignment line generated for one parameter, from the lowered type
label: the `if/elif` chain of substring tests from the source. -/
def assign_line (pname : String) (pt : String) : String :=
  if pyInStr "int" pt || pyInStr "number" pt then "        " ++ pname ++ " = 1"
  else if pyInStr "float" pt || pyInStr "decimal" pt then "        " ++ pname ++ " = 1.0"
  else if pyInStr "bool" pt then "        " ++ pname ++ " = True"
  else if pyInStr "list" pt || pyInStr "array" pt then "        " ++ pname ++ " = []"
  else if pyInStr "dict" pt || pyInStr "object" pt then "        " ++ pname ++ " = \x7b\x7d"
  else "        " ++ pname ++ " = " ++ sq ++ "test_value" ++ sq

/-- The fixed tail shared by every with-parameters stub body. -/
def basic_test_tail (func_name param_call : String) : String :=
  "\n        result = " ++ func_name ++ "(" ++ param_call ++ ")\n        \n" ++
  "        # Add assertions based on expected behavior\n" ++
  "        assert result is not None\n" ++
  "        # TODO: Add specific assertions for " ++ func_name ++ " functionality\n" ++
  "        # assert result.property == expected_value"

/-- The loop body building one parameter's assignment line:
`param.get("type", "str")` returns the stored label — the analyzer always
stores the key, with value `None` for an unannotated parameter, so the
default `"str"` is never taken and `.lower()` on that `None` raises
`AttributeError`. -/
def param_assign_step (p : ParamInfo) : Except PyErr String :=
  match p.type with
  | Option.none => Except.error
      (⟨"AttributeError",
        sq ++ "NoneType" ++ sq ++ " object has no attribute " ++ sq ++ "lower" ++ sq⟩ : PyErr)
  | some t => .ok (assign_line p.name (py_lower t))

/-- `TestTemplate._generate_basic_function_test`.

* With no parameters: the fixed no-parameter body.
* Otherwise only `params[:3]` are looped over; each contributes one
  assignment line (see `param_assign_step`) and its name to the call. -/
def _generate_basic_function_test (func_name : String) (params : List ParamInfo) :
    Except PyErr String :=
  if params.isEmpty then
    .ok ("        # Test with no parameters\n        result = " ++ func_name ++
      "()\n        assert result is not None\n" ++
      "        assert isinstance(result, expected_type)  # Replace with actual expected type")
  else
    match (params.take 3).mapM param_assign_step with
    | .error e => .error e
    | .ok assigns =>
      .ok ("        # Test with valid parameters\n" ++ "\n".intercalate assigns ++
        basic_test_tail func_name (", ".intercalate ((params.take 3).map (fun p => p.name))))

/-- Modelled from the spec (amended form): the basic-functionality stub
with one assignment per parameter (all of them), chosen by the same
resolved-label categories, followed by the call and the non-null
assertion.  An unannotated parameter is outside its domain of agreement
with the source. -/
def basic_test_spec (func_name : String) (params : List ParamInfo) : String :=
  "        # Test with valid parameters\n" ++
  "\n".intercalate (params.map (fun p =>
    assign_line p.name (py_lower (p.type.getD "str")))) ++
  basic_test_tail func_name (", ".intercalate (params.map (fun p => p.name)))

/-- Decidable equality for `Except` outcomes (componentwise). -/
instance {ε α : Type} [DecidableEq ε] [DecidableEq α] : DecidableEq (Except ε α)
  | .ok a, .ok b =>
    if h : a = b then isTrue (h ▸ rfl) else isFalse (fun hc => h (by cases hc; rfl))
  | .ok _, .error _ => isFalse (fun hc => Except.noConfusion hc)
  | .error _, .ok _ => isFalse (fun hc => Except.noConfusion hc)
  | .error a, .error b =>
    if h : a = b then isTrue (h ▸ rfl) else isFalse (fun hc => h (by cases hc; rfl))

/-! ## Concrete inputs used by the claim theorems -/

/-- A test function with a perfectly documented docstring: 11 lines, one
assertion, business-logic name, no mock keywords. -/
def doc_func : PyFunc :=
  { name := "test_validate_input_works", lineno := 1, end_lineno := 12,
    assert_count := 1,
    source_segment := "def test_validate_input_works():\n    out = validate_input(3)\n    assert out == 3",
    doc := some "Verify that input validation accepts well-formed values." }

/-- The error message of the documentation pass's `AttributeError`. -/
def docstring_attr_msg : String :=
  sq ++ "FunctionDef" ++ sq ++ " object has no attribute " ++ sq ++ "docstring" ++ sq

/-- The error `analyze_test_file` lets escape on an unparsable file. -/
def unbound_issues_err : PyErr :=
  ⟨"UnboundLocalError",
    "local variable " ++ sq ++ "issues" ++ sq ++ " referenced before assignment"⟩

/-- Claim C1 (status: code_bug).  On a file whose content cannot be parsed,
`ast.parse` raises before the local `issues = []` was executed, so the
`except` handler's `issues.append(...)` raises `UnboundLocalError`:
`analyze_test_file` raises instead of returning the degraded
(empty-metrics + `analysis_error`) result that its own handler tries to
build, and the exception aborts `analyze_project`'s scan, so the remaining
files (here `test_ok.py`) are never processed. -/
theorem C1_parse_failure_raises_and_aborts_scan :
    analyze_test_file {} "bad_test.py" (.unparsable "invalid syntax") =
      .error unbound_issues_err ∧
    analyze_project {}
      [("bad_test.py", .unparsable "invalid syntax"), ("test_ok.py", .parsed [])] =
      .error unbound_issues_err := by
  exact ⟨rfl, rfl⟩

/-- Claim C2 (status: code_bug).  A parsable file with one test function
whose docstring is longer than 20 characters and contains the keyword
`verify` — by the claim it must be counted as documented, with no
`missing_documentation` issue and `documentation_score = 100`.  The code
instead reads `func.docstring`, an attribute `ast.FunctionDef` does not
define, raising `AttributeError`; `analyze_test_file` catches it and
returns all-zero metrics (`documentation_score = 0`) plus a single
`analysis_error` issue. -/
theorem C2_documentation_pass_always_raises :
    analyze_test_file {} "test_sample.py" (.parsed [doc_func]) =
      .ok ({}, [{ file_path := "test_sample.py", line_number := 1,
                  issue_type := "analysis_error", severity := "high",
                  description := "Failed to analyze test file: " ++ docstring_attr_msg,
                  suggestion := "Check if the file contains valid Python code" }]) := by
  have h1 : _analyze_test_structure {} "test_sample.py" [doc_func] = [] := by decide
  have h2 : (test_funcs [doc_func]).countP business_hit = 1 := by decide
  have h3 : (test_funcs [doc_func]).length = 1 := by decide
  have h4 : (_analyze_business_logic_coverage ({} : TestQualityConfig) "test_sample.py"
      [doc_func]).2 = [] := by
    simp only [_analyze_business_logic_coverage, h2, h3]
    norm_num
  have h5 : (_analyze_mock_usage ({} : TestQualityConfig) "test_sample.py"
      [doc_func]).2 = [] := by decide
  have h6 : _analyze_documentation [doc_func] =
      .error ⟨"AttributeError", docstring_attr_msg⟩ := by decide
  simp only [analyze_test_file, h1, h4, h5, h6, List.nil_append]
  rfl

/-- Scenario A's configuration: `min_assertions_per_test = 2`,
`min_test_length = 10` (the default). -/
def scenario_a_cfg : TestQualityConfig := { min_assertions_per_test := 2 }

/-- Scenario A's test function: one assertion, 8-line span, no docstring. -/
def scenario_a_func : PyFunc :=
  { name := "test_calculate_total", lineno := 1, end_lineno := 9,
    assert_count := 1,
    source_segment := "def test_calculate_total():\n    result = calculate_total(2, 3)\n    assert result == 5",
    doc := Option.none }

/-- Claim C7 (status: confirmed).  Scenario A: the structure pass emits
`test_too_short` and `insufficient_assertions` for `test_calculate_total`,
and the returned metrics carry `documentation_score = 0` (here because the
documentation pass degrades the file to all-zero metrics plus an
`analysis_error` issue; the claim's three observables all hold). -/
theorem C7_scenario_a :
    ∃ m issues,
      analyze_test_file scenario_a_cfg "test_sample.py" (.parsed [scenario_a_func]) =
        .ok (m, issues) ∧
      issues.map (fun i => i.issue_type) =
        ["test_too_short", "insufficient_assertions", "analysis_error"] ∧
      issues.map (fun i => i.line_number) = [1, 1, 1] ∧
      m.documentation_score = 0 := by
  have h1 : _analyze_test_structure scenario_a_cfg "test_sample.py" [scenario_a_func] =
      [{ file_path := "test_sample.py", line_number := 1, issue_type := "test_too_short",
         severity := "medium",
         description := "Test function " ++ sq ++ "test_calculate_total" ++ sq ++ " is too short (8 lines)",
         suggestion := "Add more comprehensive test scenarios or combine with related tests" },
       { file_path := "test_sample.py", line_number := 1, issue_type := "insufficient_assertions",
         severity := "medium",
         description := "Test function " ++ sq ++ "test_calculate_total" ++ sq ++ " has only 1 assertions",
         suggestion := "Add more assertions to verify expected behavior thoroughly" }] := by
    decide
  have h2 : (test_funcs [scenario_a_func]).countP business_hit = 1 := by decide
  have h3 : (test_funcs [scenario_a_func]).length = 1 := by decide
  have h4 : (_analyze_business_logic_coverage scenario_a_cfg "test_sample.py"
      [scenario_a_func]).2 = [] := by
    simp only [_analyze_business_logic_coverage, scenario_a_cfg, h2, h3]
    norm_num
  have h5 : (_analyze_mock_usage scenario_a_cfg "test_sample.py"
      [scenario_a_func]).2 = [] := by decide
  have h6 : _analyze_documentation [scenario_a_func] =
      .error ⟨"AttributeError", docstring_attr_msg⟩ := by decide
  refine ⟨{},
    [{ file_path := "test_sample.py", line_number := 1, issue_type := "test_too_short",
       severity := "medium",
       description := "Test function " ++ sq ++ "test_calculate_total" ++ sq ++ " is too short (8 lines)",
       suggestion := "Add more comprehensive test scenarios or combine with related tests" },
     { file_path := "test_sample.py", line_number := 1, issue_type := "insufficient_assertions",
       severity := "medium",
       description := "Test function " ++ sq ++ "test_calculate_total" ++ sq ++ " has only 1 assertions",
       suggestion := "Add more assertions to verify expected behavior thoroughly" },
     analysis_error_issue "test_sample.py" ⟨"AttributeError", docstring_attr_msg⟩],
    ?_, by decide, by decide, rfl⟩
  simp only [analyze_test_file, h1, h4, h5, h6, List.append_nil, List.nil_append]
  rfl

/-- Claim C9 (status: confirmed).  For every parsable file with no test
function, each coverage/using pass takes its guarded `else` branch, so
every coverage metric is exactly 0 — and no division happens at all. -/
theorem C9_zero_test_functions_all_metrics_zero
    (cfg : TestQualityConfig) (fp : String) (funcs : List PyFunc)
    (h : ∀ f ∈ funcs, pyStartsWith f.name "test_" = false) :
    ∃ m issues,
      analyze_test_file cfg fp (.parsed funcs) = .ok (m, issues) ∧
      m.business_logic_coverage = 0 ∧ m.error_scenario_coverage = 0 ∧
      m.mock_isolation_score = 0 ∧ m.documentation_score = 0 ∧
      m.maintenance_score = 0 := by
  have hts : test_funcs funcs = [] := by
    simp only [test_funcs, List.filter_eq_nil_iff]
    intro f hf
    simp [h f hf]
  refine ⟨{}, (_analyze_business_logic_coverage cfg fp funcs).2, ?_, rfl, rfl, rfl, rfl, rfl⟩
  simp [analyze_test_file, _analyze_test_structure, _analyze_business_logic_coverage,
        _analyze_error_scenarios, _analyze_mock_usage, _analyze_documentation,
        _analyze_maintainability, _calculate_overall_score, hts]

/-- A helper (non-test) function: a concrete file containing it has zero
test functions. -/
def helper_func : PyFunc :=
  { name := "make_fixture", lineno := 1, end_lineno := 5, assert_count := 0,
    source_segment := "def make_fixture():\n    return 1", doc := Option.none }

/-- Witness for C9 at a concrete file with a single non-test function. -/
theorem C9_zero_test_functions_all_metrics_zero_witness :
    ∃ m issues,
      analyze_test_file {} "test_utils.py" (.parsed [helper_func]) = .ok (m, issues) ∧
      m.business_logic_coverage = 0 ∧ m.error_scenario_coverage = 0 ∧
      m.mock_isolation_score = 0 ∧ m.documentation_score = 0 ∧
      m.maintenance_score = 0 := by
  exact C9_zero_test_functions_all_metrics_zero {} "test_utils.py" [helper_func] (by decide)

/-- A pathological configuration: one negative weight. -/
def negative_weight_cfg : TestQualityConfig := { business_logic_weight := -1 }

/-- Metrics with full business-logic coverage and all else zero. -/
def full_business_metrics : QualityMetrics := { business_logic_coverage := 100 }

/-- Claim C3, counterexample.  With a negative weight the overall score is
`min (100 * (-1)) 100 = -100`, strictly below the claimed lower bound 0. -/
theorem C3_counterexample_negative_weight :
    _calculate_overall_score negative_weight_cfg full_business_metrics = -100 ∧
    ¬(0 ≤ _calculate_overall_score negative_weight_cfg full_business_metrics) := by
  constructor <;>
    · simp only [_calculate_overall_score, negative_weight_cfg, full_business_metrics]
      norm_num

/-- Claim C3 (status: corrected; amended form).  The computed overall score
never exceeds 100 for any configuration and any metrics; and whenever the
six weights and the six scored metric values are all nonnegative it also
stays at or above 0, hence lies in `[0, 100]`.  (The original claim's
unconditional lower bound fails: the cap `min(score, 100.0)` bounds only
from above, see the counterexample.) -/
theorem C3_amended_overall_score_bounds (cfg : TestQualityConfig) (m : QualityMetrics) :
    _calculate_overall_score cfg m ≤ 100 ∧
    (0 ≤ cfg.business_logic_weight → 0 ≤ cfg.error_scenario_weight →
     0 ≤ cfg.mock_isolation_weight → 0 ≤ cfg.realistic_data_weight →
     0 ≤ cfg.documentation_weight → 0 ≤ cfg.maintenance_weight →
     0 ≤ m.business_logic_coverage → 0 ≤ m.error_scenario_coverage →
     0 ≤ m.mock_isolation_score → 0 ≤ m.realistic_data_score →
     0 ≤ m.documentation_score → 0 ≤ m.maintenance_score →
     0 ≤ _calculate_overall_score cfg m) := by
  constructor
  · exact min_le_right _ _
  · intro hw1 hw2 hw3 hw4 hw5 hw6 hm1 hm2 hm3 hm4 hm5 hm6
    have hsum : (0:ℚ) ≤
        m.business_logic_coverage * cfg.business_logic_weight +
        m.error_scenario_coverage * cfg.error_scenario_weight +
        m.mock_isolation_score * cfg.mock_isolation_weight +
        m.realistic_data_score * cfg.realistic_data_weight +
        m.documentation_score * cfg.documentation_weight +
        m.maintenance_score * cfg.maintenance_weight := by
      have h1 := mul_nonneg hm1 hw1
      have h2 := mul_nonneg hm2 hw2
      have h3 := mul_nonneg hm3 hw3
      have h4 := mul_nonneg hm4 hw4
      have h5 := mul_nonneg hm5 hw5
      have h6 := mul_nonneg hm6 hw6
      linarith
    exact le_min hsum (by norm_num)

/-- Witness for C3 (amended) at the default configuration and all-zero
metrics: both bounds hold with every hypothesis discharged concretely. -/
theorem C3_amended_overall_score_bounds_witness :
    _calculate_overall_score {} {} ≤ 100 ∧ 0 ≤ _calculate_overall_score {} {} := by
  refine ⟨(C3_amended_overall_score_bounds {} {}).1,
    (C3_amended_overall_score_bounds {} {}).2 ?_ ?_ ?_ ?_ ?_ ?_ ?_ ?_ ?_ ?_ ?_ ?_⟩ <;>
    norm_num

/-- A test function whose name carries no underscore after the `test_`
prefix, with an in-range 20-line span. -/
def test_foo_func : PyFunc :=
  { name := "test_foo", lineno := 1, end_lineno := 21, assert_count := 1,
    source_segment := "def test_foo():\n    assert foo() == 1", doc := Option.none }

/-- Claim C5, counterexample.  `test_foo` has no underscore after the
`test_` prefix, so by the claim it must not count as maintainable; the
code only checks for an underscore in the *full* name — which the `test_`
prefix always provides — so the maintainability score for a file holding
only `test_foo` is 100, not 0. -/
theorem C5_counterexample_test_foo :
    (_analyze_maintainability {} "test_foo.py" [test_foo_func]).1 = 100 ∧
    pyHasChar "foo" '_' = false := by
  constructor
  · have h1 : (test_funcs [test_foo_func]).countP (maintainable {}) = 1 := by decide
    have h2 : (test_funcs [test_foo_func]).length = 1 := by decide
    simp only [_analyze_maintainability, h1, h2]
    norm_num
  · decide

/-- The maintainability predicate the code actually decides on a test
function: only the line-span bounds (the naming test is vacuous there). -/
def maintainable_span (cfg : TestQualityConfig) (f : PyFunc) : Bool :=
  cfg.min_test_length ≤ func_lines f && func_lines f ≤ cfg.max_test_length

/-- The maintainability score restated with the span-only predicate. -/
def maintenance_span_score (cfg : TestQualityConfig) (fs : List PyFunc) : ℚ :=
  let ts := test_funcs fs
  if ts.length > 0 then ((ts.countP (maintainable_span cfg) : ℚ) / (ts.length : ℚ)) * 100
  else 0

/-- A name starting with `test_` contains an underscore and is non-empty. -/
theorem startsWith_test_has_underscore (n : String)
    (h : pyStartsWith n "test_" = true) :
    pyHasChar n '_' = true ∧ (n = "") = False := by
  have hpre : "test_".data <+: n.data := by
    simpa [pyStartsWith, List.isPrefixOf_iff_prefix] using h
  obtain ⟨t, ht⟩ := hpre
  constructor
  · have hm : '_' ∈ n.data := by
      rw [← ht]
      exact List.mem_append_of_mem_left t (by decide)
    simpa [pyHasChar] using hm
  · simp only [eq_iff_iff, iff_false]
    intro hn
    rw [hn] at ht
    have hlen := congrArg List.length ht
    simp only [List.length_append] at hlen
    have h5 : ("test_".data).length = 5 := by decide
    rw [h5] at hlen
    simp only [List.length_nil] at hlen
    omega

/-- Claim C5 (status: corrected; amended form).  In the maintainability
pass a test function counts as maintainable **iff its line span lies
within `[min_test_length, max_test_length]`**: the descriptive-naming
conjunct (`'_' in func.name`) is checked against the full name, which
always contains the underscore of the `test_` prefix, so it never excludes
anything — in particular `test_foo` with an in-range span is counted. -/
theorem C5_amended_maintainability_span_only
    (cfg : TestQualityConfig) (fp : String) (fs : List PyFunc) :
    (_analyze_maintainability cfg fp fs).1 = maintenance_span_score cfg fs := by
  simp only [_analyze_maintainability, maintenance_span_score]
  have hcnt : (test_funcs fs).countP (maintainable cfg) =
      (test_funcs fs).countP (maintainable_span cfg) := by
    apply List.countP_congr
    intro f hf
    have hmem := List.mem_filter.mp hf
    obtain ⟨hu, hne⟩ := startsWith_test_has_underscore f.name hmem.2
    simp [maintainable, maintainable_span, hu, hne]
  rw [hcnt]

/-- The accumulation loop sums each aggregated field of the metrics list. -/
theorem sum_metrics_fields (l : List QualityMetrics) :
    (sum_metrics l).business_logic_coverage = (l.map (fun m => m.business_logic_coverage)).sum ∧
    (sum_metrics l).error_scenario_coverage = (l.map (fun m => m.error_scenario_coverage)).sum ∧
    (sum_metrics l).mock_isolation_score = (l.map (fun m => m.mock_isolation_score)).sum ∧
    (sum_metrics l).realistic_data_score = (l.map (fun m => m.realistic_data_score)).sum ∧
    (sum_metrics l).documentation_score = (l.map (fun m => m.documentation_score)).sum ∧
    (sum_metrics l).maintenance_score = (l.map (fun m => m.maintenance_score)).sum ∧
    (sum_metrics l).overall_quality_score = (l.map (fun m => m.overall_quality_score)).sum := by
  induction l with
  | nil => simp [sum_metrics]
  | cons m rest ih =>
    obtain ⟨i1, i2, i3, i4, i5, i6, i7⟩ := ih
    simp [sum_metrics, i1, i2, i3, i4, i5, i6, i7]

/-- Claim C8 (status: confirmed).  For every non-empty list of per-file
metrics, each (spec-model) field of the aggregate — the six sub-metrics
and the overall score — is the unweighted arithmetic mean of that field
over the files. -/
theorem C8_project_metrics_are_field_means (l : List QualityMetrics) (h : l ≠ []) :
    (_calculate_project_metrics l).business_logic_coverage =
      field_mean l (fun m => m.business_logic_coverage) ∧
    (_calculate_project_metrics l).error_scenario_coverage =
      field_mean l (fun m => m.error_scenario_coverage) ∧
    (_calculate_project_metrics l).mock_isolation_score =
      field_mean l (fun m => m.mock_isolation_score) ∧
    (_calculate_project_metrics l).realistic_data_score =
      field_mean l (fun m => m.realistic_data_score) ∧
    (_calculate_project_metrics l).documentation_score =
      field_mean l (fun m => m.documentation_score) ∧
    (_calculate_project_metrics l).maintenance_score =
      field_mean l (fun m => m.maintenance_score) ∧
    (_calculate_project_metrics l).overall_quality_score =
      field_mean l (fun m => m.overall_quality_score) := by
  have hne : l.isEmpty = false := by
    cases l with
    | nil => exact absurd rfl h
    | cons a t => rfl
  obtain ⟨s1, s2, s3, s4, s5, s6, s7⟩ := sum_metrics_fields l
  simp [_calculate_project_metrics, hne, field_mean, s1, s2, s3, s4, s5, s6, s7]

/-- A per-file metrics record with overall score 95. -/
def metrics95 : QualityMetrics := { overall_quality_score := 95 }

/-- A per-file metrics record with overall score 65. -/
def metrics65 : QualityMetrics := { overall_quality_score := 65 }

/-- Witness for C8: two files scoring 95 and 65 aggregate to exactly 80.0,
whose quality grade is B, and all seven fields are the field means. -/
theorem C8_project_metrics_are_field_means_witness :
    ((_calculate_project_metrics [metrics95, metrics65]).overall_quality_score =
      field_mean [metrics95, metrics65] (fun m => m.overall_quality_score)) ∧
    (_calculate_project_metrics [metrics95, metrics65]).overall_quality_score = 80 ∧
    _calculate_quality_grade
      (_calculate_project_metrics [metrics95, metrics65]).overall_quality_score = "B" := by
  have hmean := (C8_project_metrics_are_field_means [metrics95, metrics65]
    (by simp)).2.2.2.2.2.2
  have h80 : (_calculate_project_metrics [metrics95, metrics65]).overall_quality_score = 80 := by
    rw [hmean]
    simp only [field_mean, metrics95, metrics65, List.map_cons, List.map_nil, List.sum_cons,
      List.sum_nil, List.length_cons, List.length_nil]
    norm_num
  refine ⟨hmean, h80, ?_⟩
  rw [h80]
  simp only [_calculate_quality_grade]
  norm_num

/-- A parameter annotated `int`. -/
def int_param (n : String) : ParamInfo := { name := n, type := some "int" }

set_option maxRecDepth 4000 in
/-- Claim C4, counterexample.  For a function of four `int` parameters the
stub covers only `params[:3]`: the produced body equals the spec-model
stub for the *first three* parameters (`d` gets neither an assignment nor
a place in the call), not the spec-model stub for all four. -/
theorem C4_counterexample_fourth_param_dropped :
    _generate_basic_function_test "f"
        [int_param "a", int_param "b", int_param "c", int_param "d"] =
      .ok (basic_test_spec "f" [int_param "a", int_param "b", int_param "c"]) ∧
    _generate_basic_function_test "f"
        [int_param "a", int_param "b", int_param "c", int_param "d"] ≠
      .ok (basic_test_spec "f" [int_param "a", int_param "b", int_param "c", int_param "d"]) := by
  constructor <;> decide

/-- Each annotated parameter's loop step yields its assignment line. -/
theorem mapM_param_assign (ps : List ParamInfo)
    (h : ∀ p ∈ ps, p.type ≠ Option.none) :
    ps.mapM param_assign_step =
      Except.ok (ps.map (fun p => assign_line p.name (py_lower (p.type.getD "str")))) := by
  induction ps with
  | nil => rfl
  | cons p rest ih =>
    obtain ⟨t, ht⟩ := Option.ne_none_iff_exists'.mp (h p (List.mem_cons_self p rest))
    have hstep : param_assign_step p = .ok (assign_line p.name (py_lower t)) := by
      simp [param_assign_step, ht]
    rw [List.mapM_cons, hstep, ih (fun q hq => h q (List.mem_cons_of_mem p hq))]
    simp only [List.map_cons, ht, Option.getD_some]
    rfl

/-- Claim C4 (status: corrected; amended form).  For every function whose
parameter list has at most three entries, each carrying a resolved
(non-null) type label, the generated basic-functionality stub is exactly
the spec-model stub: one literal assignment per parameter chosen by the
label's category, then the call on those parameters and the non-null
assertion.  (Functions with more parameters only get the first three —
see the counterexample — and a parameter with a null label makes the
generator raise `AttributeError`.) -/
theorem C4_amended_basic_stub (fn : String) (ps : List ParamInfo)
    (h1 : ps ≠ []) (h2 : ps.length ≤ 3) (h3 : ∀ p ∈ ps, p.type ≠ Option.none) :
    _generate_basic_function_test fn ps = .ok (basic_test_spec fn ps) := by
  have hne : ps.isEmpty = false := by
    cases ps with
    | nil => exact absurd rfl h1
    | cons a t => rfl
  have htake : ps.take 3 = ps := List.take_of_length_le h2
  simp only [_generate_basic_function_test, hne, Bool.false_eq_true, if_false, htake,
    mapM_param_assign ps h3, basic_test_spec]

/-- Witness for C4 (amended), Scenario B: `def add(a: int, b: int)` gets
`a = 1` and `b = 1` and a non-null assertion. -/
theorem C4_amended_basic_stub_witness :
    _generate_basic_function_test "add" [int_param "a", int_param "b"] =
      .ok (basic_test_spec "add" [int_param "a", int_param "b"]) ∧
    pyInStr "        a = 1\n        b = 1"
      (basic_test_spec "add" [int_param "a", int_param "b"]) = true ∧
    pyInStr "assert result is not None"
      (basic_test_spec "add" [int_param "a", int_param "b"]) = true := by
  refine ⟨C4_amended_basic_stub "add" [int_param "a", int_param "b"]
    (by decide) (by decide) (by decide), by decide, by decide⟩

/-- A function definition with one unannotated parameter. -/
def unannotated_fd : PyFunctionDef := { name := "g", args := [{ arg := "x" }] }

/-- Claim C6, counterexample.  A parameter with no annotation keeps the
label `None` in the structural model (the `type` key is initialized to
`None` and `_get_node_type` is never called for it); it does **not**
render as the label `Any` as claimed. -/
theorem C6_counterexample_unannotated_param :
    ((_analyze_function unannotated_fd).parameters.map (fun p => p.type)) = [Option.none] ∧
    (Option.none : Option String) ≠ some "Any" := by
  constructor
  · rfl
  · decide

/-- Claim C6 (status: corrected; amended form).  A parameter's label is the
rendering of its annotation node when one exists, and null otherwise; the
rendering rules are: a bare name keeps its name, an attribute access
renders as `Owner.Member`, a subscripted generic renders as `Base[Inner]`,
a literal constant renders as its `str` form, and any *other annotation
node kind* renders as `Any` — absence of an annotation does not. -/
theorem C6_amended_type_label_rules :
    (∀ fd : PyFunctionDef, (_analyze_function fd).parameters =
        fd.args.map (fun a => { name := a.arg, type := a.annot.map _get_node_type })) ∧
    (∀ id, _get_node_type (.name id) = id) ∧
    (∀ v a, _get_node_type (.attr_access v a) = _get_node_type v ++ "." ++ a) ∧
    (∀ v s, _get_node_type (.subscriptOf v s) =
      _get_node_type v ++ "[" ++ _get_node_type s ++ "]") ∧
    (∀ c, _get_node_type (.constant c) = py_str c) ∧
    _get_node_type .otherExpr = "Any" :=
  ⟨fun _ => rfl, fun _ => rfl, fun _ _ => rfl, fun _ _ => rfl, fun _ => rfl, rfl⟩

/-- The body of a class definition. -/
def PyClassDef.body : PyClassDef → List PyStmt
  | .mk _ _ b _ => b

/-- A target list holding a bare-`Name` target makes the property loop of
`_analyze_class` raise. -/
theorem class_assign_targets_err (ps : List PropInfo) (ts : List PyTarget)
    (h : ∃ id, PyTarget.name id ∈ ts) :
    class_assign_targets ps ts = .error name_attr_err := by
  induction ts with
  | nil =>
    obtain ⟨id, hm⟩ := h
    cases hm
  | cons t rest ih =>
    cases t with
    | name id => rfl
    | otherTarget =>
      obtain ⟨id, hm⟩ := h
      cases hm with
      | tail _ hm2 => exact ih ⟨id, hm2⟩

/-- The property loop either raises that `AttributeError` or succeeds. -/
theorem class_assign_targets_cases (ps : List PropInfo) (ts : List PyTarget) :
    class_assign_targets ps ts = .error name_attr_err ∨
    ∃ r, class_assign_targets ps ts = .ok r := by
  induction ts with
  | nil => exact Or.inr ⟨ps, rfl⟩
  | cons t rest ih =>
    cases t with
    | name id => exact Or.inl rfl
    | otherTarget => exact ih

/-- A class body holding a plain assignment with a bare-`Name` target makes
the class body loop raise. -/
theorem class_body_loop_err (ms : List MethodInfo) (props : List PropInfo)
    (body : List PyStmt)
    (h : ∃ ts v, PyStmt.assign ts v ∈ body ∧ ∃ id, PyTarget.name id ∈ ts) :
    class_body_loop ms props body = .error name_attr_err := by
  induction body generalizing ms props with
  | nil =>
    obtain ⟨ts, v, hm, _⟩ := h
    cases hm
  | cons st rest ih =>
    obtain ⟨ts, v, hm, hid⟩ := h
    cases hm with
    | head =>
      simp only [class_body_loop, class_assign_targets_err props ts hid]
    | tail _ hm2 =>
      cases st with
      | importStmt names => exact ih ms props ⟨ts, v, hm2, hid⟩
      | importFrom m names => exact ih ms props ⟨ts, v, hm2, hid⟩
      | functionDef fd => exact ih _ props ⟨ts, v, hm2, hid⟩
      | classDef cd => exact ih ms props ⟨ts, v, hm2, hid⟩
      | otherStmt => exact ih ms props ⟨ts, v, hm2, hid⟩
      | assign ts2 v2 =>
        rcases class_assign_targets_cases props ts2 with he | ⟨r, hr⟩
        · simp only [class_body_loop, he]
        · simp only [class_body_loop, hr]
          exact ih ms r ⟨ts, v, hm2, hid⟩

/-- The class body loop either raises that `AttributeError` or succeeds. -/
theorem class_body_loop_cases (ms : List MethodInfo) (props : List PropInfo)
    (body : List PyStmt) :
    class_body_loop ms props body = .error name_attr_err ∨
    ∃ r, class_body_loop ms props body = .ok r := by
  induction body generalizing ms props with
  | nil => exact Or.inr ⟨(ms, props), rfl⟩
  | cons st rest ih =>
    cases st with
    | importStmt names => exact ih ms props
    | importFrom m names => exact ih ms props
    | functionDef fd => exact ih _ props
    | classDef cd => exact ih ms props
    | otherStmt => exact ih ms props
    | assign ts v =>
      rcases class_assign_targets_cases props ts with he | ⟨r, hr⟩
      · exact Or.inl (by simp only [class_body_loop, he])
      · rcases ih ms r with h1 | ⟨r2, h2⟩
        · exact Or.inl (by simp only [class_body_loop, hr]; exact h1)
        · exact Or.inr ⟨r2, by simp only [class_body_loop, hr]; exact h2⟩

/-- `_analyze_class` raises on a class with an offending assignment. -/
theorem _analyze_class_err (cd : PyClassDef)
    (h : ∃ ts v, PyStmt.assign ts v ∈ cd.body ∧ ∃ id, PyTarget.name id ∈ ts) :
    _analyze_class cd = .error name_attr_err := by
  cases cd with
  | mk nm bs body doc =>
    have hb := class_body_loop_err [] [] body (by simpa [PyClassDef.body] using h)
    simp only [_analyze_class, hb]

/-- `_analyze_class` either raises that `AttributeError` or succeeds. -/
theorem _analyze_class_cases (cd : PyClassDef) :
    _analyze_class cd = .error name_attr_err ∨ ∃ r, _analyze_class cd = .ok r := by
  cases cd with
  | mk nm bs body doc =>
    rcases class_body_loop_cases [] [] body with he | ⟨⟨ms, props⟩, hr⟩
    · exact Or.inl (by simp only [_analyze_class, he])
    · refine Or.inr ⟨⟨nm, pyStartsWith nm "_",
        bs.filterMap (fun b =>
          match b with
          | .name id => some id
          | _ => Option.none), ms, props, doc⟩, ?_⟩
      simp only [_analyze_class, hr]

/-- The whole second extraction loop raises when the body holds a class
with an offending assignment. -/
theorem extract_defs_err (fns : List FuncInfo) (cls : List ClassInfo)
    (cs : List ConstRec) (body : List PyStmt)
    (h : ∃ cd, PyStmt.classDef cd ∈ body ∧
      ∃ ts v, PyStmt.assign ts v ∈ PyClassDef.body cd ∧ ∃ id, PyTarget.name id ∈ ts) :
    extract_defs fns cls cs body = .error name_attr_err := by
  induction body generalizing fns cls cs with
  | nil =>
    obtain ⟨cd, hm, _⟩ := h
    cases hm
  | cons st rest ih =>
    obtain ⟨cd, hm, hoff⟩ := h
    cases hm with
    | head =>
      simp only [extract_defs, _analyze_class_err cd hoff]
    | tail _ hm2 =>
      cases st with
      | importStmt names => exact ih fns cls cs ⟨cd, hm2, hoff⟩
      | importFrom m names => exact ih fns cls cs ⟨cd, hm2, hoff⟩
      | functionDef fd => exact ih _ cls cs ⟨cd, hm2, hoff⟩
      | otherStmt => exact ih fns cls cs ⟨cd, hm2, hoff⟩
      | assign ts v => exact ih fns cls _ ⟨cd, hm2, hoff⟩
      | classDef cd2 =>
        rcases _analyze_class_cases cd2 with he | ⟨r, hr⟩
        · simp only [extract_defs, he]
        · simp only [extract_defs, hr]
          exact ih fns _ cs ⟨cd, hm2, hoff⟩

/-- Claim C10 (status: confirmed).  Any syntactically valid module whose
body holds a class with a plain assignment to a bare name in its class
body is extracted through the degraded branch: the property loop's
`target.name` access (on an `ast.Name`, whose attribute is `.id`) raises
`AttributeError`, `analyze_module` catches it and returns the dictionary
with the embedded error string and empty functions/classes/imports/
constants lists — even though the source parses. -/
theorem C10_class_level_assignment_degrades_module
    (parts : List String) (stem : String) (body : List PyStmt)
    (h : ∃ cd, PyStmt.classDef cd ∈ body ∧
      ∃ ts v, PyStmt.assign ts v ∈ PyClassDef.body cd ∧ ∃ id, PyTarget.name id ∈ ts) :
    analyze_module parts stem (.parsed body) = degraded_module stem name_attr_err.msg := by
  simp only [analyze_module, extract_defs_err [] [] [] body h]

/-- A class with one class-level attribute `x = 1`. -/
def offending_class : PyClassDef :=
  .mk "Config" [] [PyStmt.assign [PyTarget.name "x"] (PyValue.constant (PyConstVal.int 1))] ""

/-- Witness for C10 at a concrete one-class module. -/
theorem C10_class_level_assignment_degrades_module_witness :
    analyze_module ["mymodule"] "mymodule" (.parsed [PyStmt.classDef offending_class]) =
      degraded_module "mymodule" name_attr_err.msg :=
  C10_class_level_assignment_degrades_module ["mymodule"] "mymodule" _
    ⟨offending_class, List.mem_singleton.mpr rfl,
     [PyTarget.name "x"], PyValue.constant (PyConstVal.int 1),
     List.mem_singleton.mpr rfl, "x", List.mem_singleton.mpr rfl⟩

end ForgePatterns
